import Mathlib

/-!
Verification development for the Mole static-site generator.

The Rust sources are embedded shallowly:
strings become Lean `String` (scanning is done on `String.data`,
a `List Char`; all inputs of interest are ASCII so byte indices and
character indices coincide), fallible functions return
`Except ParseError`, the file input of the parsers becomes the list of
its lines, and the external collaborators (liquid templating engine,
markdown converter, filesystem) become explicit function arguments or
data.  Standard-library calls of the Rust code (`trim`, `split`,
`replace`, `find`, `starts_with`) are embedded as simple structural
recursions on character lists, mirroring their documented behaviour.
-/

deriving instance DecidableEq for Except

/-- Rust `str::trim`: drop whitespace from both ends. -/
def myTrim (s : String) : String :=
  ⟨(((s.data.dropWhile Char.isWhitespace).reverse.dropWhile Char.isWhitespace).reverse)⟩

/-- Rust `str::split` with pattern `"\n"`, on character lists. -/
def splitNl : List Char → List (List Char)
  | [] => [[]]
  | c :: cs =>
    if c = '\n' then [] :: splitNl cs
    else
      match splitNl cs with
      | [] => [[c]]
      | h :: t => (c :: h) :: t

/-- Rust `str::find` for a single-character pattern: index of first occurrence. -/
def strFind : List Char → Char → Option Nat
  | [], _ => none
  | c :: cs, t => if c = t then some 0 else (strFind cs t).map (· + 1)

/-- Rust `str::starts_with` for a string pattern. -/
def startsWithS (pre s : String) : Bool :=
  pre.data.isPrefixOf s.data

/-- Rust `format!` padding `{n:w$}` for an integer: left-pad the decimal
representation with spaces up to width `w`. -/
def padInt (w : Nat) (n : Int) : String :=
  let s := toString n
  ⟨List.replicate (w - s.length) ' '⟩ ++ s

/-- Rust `str::replace`, non-overlapping and left to right, on character
lists; the pattern is split as head and tail so that it is non-empty, and
the recursion is driven by a fuel argument (each step consumes at least
one character, so fuel equal to the length of the scanned list is enough;
exhausted fuel returns the remainder unchanged, which never happens for
the initial fuel). -/
def replaceCore (p : Char) (ps sub : List Char) : Nat → List Char → List Char
  | 0, l => l
  | _ + 1, [] => []
  | fuel + 1, c :: cs =>
    if c = p ∧ ps.isPrefixOf cs then
      sub ++ replaceCore p ps sub fuel (cs.drop ps.length)
    else
      c :: replaceCore p ps sub fuel cs

/-- Rust `str::replace` on strings (the empty pattern leaves the string
unchanged; the sources only ever use the pattern `" "`). -/
def rustReplace (s pat sub : String) : String :=
  match pat.data with
  | [] => s
  | p :: ps => ⟨replaceCore p ps sub.data s.data.length s.data⟩

namespace parse

/-- The error type of src/parse.rs (each variant carries a formatted
diagnostic string). -/
inductive ParseError where
  | InvalidKey : String → ParseError
  | EmptyValue : String → ParseError
  | InvalidValue : String → ParseError
  | InvalidConfig : String → ParseError
deriving DecidableEq, Repr

/-- The configuration record of src/parse.rs. -/
structure Config where
  layout : String
  base_layout : String
  title : String
  description : String
  permalink : String
  categories : List String
  tags : List String
  visible : Bool
deriving DecidableEq, Repr

/-- The `Default` impl of `Config` in src/parse.rs. -/
def Config.default : Config :=
  { layout := ""
    base_layout := "default"
    title := ""
    description := ""
    permalink := ""
    categories := []
    tags := []
    visible := false }

/-- `Config::is_valid` of src/parse.rs. -/
def Config.is_valid (c : Config) : Bool :=
  !(c.layout.isEmpty || c.title.isEmpty)

/-- `parse_error_message` of src/parse.rs: the compiler-style pointer
diagnostic.  The line number is an `i8` in the source; it is modelled as
`Int`. -/
def parse_error_message (message path line : String) (start fin : Nat)
    (lineno : Int) : String :=
  let spacing : String := if lineno < 99 then "  " else if lineno < 127 then "   " else "    "
  let underline : String := ⟨List.replicate start ' ' ++ List.replicate (fin - start) '^'⟩
  "\n" ++ spacing ++ " --> " ++ path ++ " " ++ toString lineno ++ ":" ++ toString start ++
  "\n" ++ spacing ++ " |" ++
  "\n" ++ padInt spacing.length lineno ++ " | " ++ line ++
  "\n" ++ spacing ++ " | " ++ underline ++
  "\n" ++ spacing ++ " |" ++
  "\n" ++ spacing ++ message

/-- `parse_key` of src/parse.rs: split a header line at the first colon. -/
def parse_key (rest path line : String) (lineno : Int) :
    Except ParseError (String × String) :=
  if rest = "" then
    .error (.EmptyValue (parse_error_message "expected name of key" path line
      line.length (line.length + 5) lineno))
  else
    match strFind rest.data ':' with
    | some index => .ok (⟨rest.data.take index⟩, ⟨rest.data.drop (index + 1)⟩)
    | none =>
      .error (.InvalidKey (parse_error_message "no semicolon found" path line
        line.length (line.length + 1) lineno))

/-- `parse_value_string` of src/parse.rs: trim, reject empty values and the
literal delimiter. -/
def parse_value_string (rest path line : String) (lineno : Int) :
    Except ParseError String :=
  let rest := myTrim rest
  if rest = "" then
    .error (.EmptyValue (parse_error_message "empty value" path line
      line.length (line.length + 5) lineno))
  else if rest = "---" then
    .error (.InvalidValue (parse_error_message
      "found \x27---\x27 can\x27t use configuration start and end identifier as a value"
      path line (line.length - 3) line.length lineno))
  else
    .ok rest

/-- `parse_value_boolean` of src/parse.rs: Rust `str::parse::<bool>` accepts
exactly the literals `true` and `false`. -/
def parse_value_boolean (rest path line : String) (lineno : Int) :
    Except ParseError Bool :=
  if rest = "true" then .ok true
  else if rest = "false" then .ok false
  else
    .error (.InvalidValue (parse_error_message "" path line
      (line.length - rest.length) line.length lineno))

/-- The byte loop of `parse_value_list` in src/parse.rs: `rest` is the full
scanned slice (used for slicing and for the final `prev == rest.len()`
check), the first list argument is the not-yet-visited suffix, `i` the
current index, `prev` the index one past the last separator, `inS` and
`inSL` the double-quote and single-quote flags, and `acc` the elements
collected so far. -/
def list_core (rest : List Char) (path line : String) (n : Int) :
    List Char → Nat → Nat → Bool → Bool → List String →
    Except ParseError (List String)
  | [], _i, prev, inS, inSL, acc =>
    if prev = rest.length then
      .error (.InvalidValue (parse_error_message "value expected after semi-colon"
        path line line.length (line.length + 5) n))
    else if inS then
      .error (.InvalidValue (parse_error_message "found a string but no closing \""
        path line (line.length - 1) line.length n))
    else if inSL then
      .error (.InvalidValue (parse_error_message "found a string but no closing \x27"
        path line (line.length - 1) line.length n))
    else
      match parse_value_string ⟨rest.drop prev⟩ path line n with
      | .error e => .error e
      | .ok elem => .ok (acc ++ [elem])
  | c :: cs, i, prev, inS, inSL, acc =>
    if c = ',' ∧ inS = false ∧ inSL = false then
      match parse_value_string ⟨(rest.drop prev).take (i - prev)⟩ path line n with
      | .error e => .error e
      | .ok elem => list_core rest path line n cs (i + 1) (i + 1) inS inSL (acc ++ [elem])
    else if c = '\x22' ∧ inSL = false then
      list_core rest path line n cs (i + 1) prev (!inS) inSL acc
    else if c = '\x27' ∧ inS = false then
      list_core rest path line n cs (i + 1) prev inS (!inSL) acc
    else
      list_core rest path line n cs (i + 1) prev inS inSL acc

/-- `parse_value_list` of src/parse.rs: trim, reject empty, strip balanced
square brackets (all leading `[` and trailing `]`, as
`trim_start_matches` and `trim_end_matches` do), then scan. -/
def parse_value_list (rest0 path line : String) (lineno : Int) :
    Except ParseError (List String) :=
  let rest1 := myTrim rest0
  if rest1 = "" then
    .error (.EmptyValue (parse_error_message "empty" path line
      line.length (line.length + 5) lineno))
  else
    match
      (if rest1.data.head? = some '[' then
        if rest1.data.getLast? = some ']' then
          .ok (⟨(rest1.data.dropWhile (· = '[')).reverse.dropWhile (· = ']') |>.reverse⟩ : String)
        else
          .error (.InvalidValue (parse_error_message
            "found opening square bracket for list but no opening bracket"
            path line 0 line.length lineno))
      else (.ok rest1 : Except ParseError String)) with
    | .error e => .error e
    | .ok rest =>
      list_core rest.data path line lineno rest.data 0 0 false false []

/-- Loop state of the `parse` function in src/parse.rs. -/
structure PState where
  found_config : Bool
  line_n : Int
  config : Config
  body : String
  reached_end : Bool
deriving DecidableEq, Repr

/-- Initial loop state of `parse` in src/parse.rs. -/
def initState : PState :=
  { found_config := false, line_n := 1, config := Config.default,
    body := "", reached_end := false }

/-- The `match key` dispatch of the `parse` loop in src/parse.rs: each
recognized key overwrites one field of the accumulated configuration. -/
def apply_key (path line : String) (n : Int) (c : Config) (key rest : String) :
    Except ParseError Config :=
  match key with
  | "layout" =>
    match parse_value_string (myTrim rest) path line n with
    | .error e => .error e
    | .ok v => .ok { c with layout := v }
  | "base_layout" =>
    match parse_value_string (myTrim rest) path line n with
    | .error e => .error e
    | .ok v => .ok { c with base_layout := v }
  | "title" =>
    match parse_value_string (myTrim rest) path line n with
    | .error e => .error e
    | .ok v => .ok { c with title := v }
  | "description" =>
    match parse_value_string (myTrim rest) path line n with
    | .error e => .error e
    | .ok v => .ok { c with description := v }
  | "permalink" =>
    match parse_value_string (myTrim rest) path line n with
    | .error e => .error e
    | .ok v => .ok { c with permalink := v }
  | "categories" =>
    match parse_value_list (myTrim rest) path line n with
    | .error e => .error e
    | .ok v => .ok { c with categories := v }
  | "tags" =>
    match parse_value_list (myTrim rest) path line n with
    | .error e => .error e
    | .ok v => .ok { c with tags := v }
  | "visible" =>
    match parse_value_boolean (myTrim rest) path line n with
    | .error e => .error e
    | .ok v => .ok { c with visible := v }
  | _ =>
    .error (.InvalidKey (parse_error_message "unknown key" path line 0
      (line.length - 1) n))

/-- One iteration of the line loop of `parse` in src/parse.rs, with the
same branch order as the source `if`/`else if` chain. -/
def step (path : String) (st : PState) (line : String) :
    Except ParseError PState :=
  if st.found_config = false ∧ line = "---" then
    .ok { st with found_config := true, line_n := st.line_n + 1 }
  else if st.found_config = true ∧ line = "---" then
    .ok { st with reached_end := true, found_config := false, line_n := st.line_n + 1 }
  else if st.reached_end = true then
    .ok { st with body := st.body ++ line ++ "\n" }
  else if st.found_config = true then
    match parse_key line path line st.line_n with
    | .error e => .error e
    | .ok (key, rest) =>
      match apply_key path line st.line_n st.config key rest with
      | .error e => .error e
      | .ok c => .ok { st with config := c, line_n := st.line_n + 1 }
  else
    .error (.InvalidConfig (parse_error_message
      "configuration needs to start with \x27---\x27 for the first line"
      path line 0 line.length st.line_n))

/-- End-of-input validation of `parse` in src/parse.rs: the classification
chain after the loop (note that the first message interpolates the literal
string `test.txt`, not the path). -/
def finish (st : PState) : Except ParseError (Config × String) :=
  if st.config.is_valid then
    .ok (st.config, st.body)
  else if st.line_n = 2 then
    .error (.InvalidConfig ("empty config no key value pairs found in " ++ "test.txt"))
  else if st.reached_end = false then
    .error (.InvalidConfig "no at \x27---\x27 for the last line of the configuration")
  else if st.config.title = "" then
    .error (.InvalidConfig "missing configuration \x27title\x27 field")
  else
    .error (.InvalidConfig
      "missing configuration \x27layout\x27 field or \x27base_layout\x27 to be set to a custom value")

/-- The `parse` function of src/parse.rs over the list of input lines. -/
def parse (lines : List String) (path : String) :
    Except ParseError (Config × String) :=
  match lines.foldlM (step path) initState with
  | .error e => .error e
  | .ok st => finish st


end parse

namespace article

/-- Timestamp record standing in for `chrono::NaiveDateTime` in the richer
configuration of src/article.rs. -/
structure DateTime where
  year : Nat
  month : Nat
  day : Nat
  hour : Nat
  minute : Nat
  second : Nat
deriving DecidableEq, Repr

/-- Numeric value of two decimal digit characters. -/
def twoDigits (a b : Char) : Nat :=
  (a.toNat - 48) * 10 + (b.toNat - 48)

/-- Modelled from the spec: `parse_value_time` is imported by src/article.rs
from the parse module but its definition is not among the provided sources;
the spec only says the `date` key takes a structured date-time parse
producing a timestamp, with a malformed timestamp an `InvalidValue`.  We
model it as a strict `YYYY-MM-DD HH:MM:SS` parse. -/
def parse_value_time (rest path line : String) (lineno : Int) :
    Except parse.ParseError DateTime :=
  match rest.data with
  | [y1, y2, y3, y4, '-', o1, o2, '-', d1, d2, ' ', h1, h2, ':', i1, i2, ':', s1, s2] =>
    if (y1.isDigit ∧ y2.isDigit ∧ y3.isDigit ∧ y4.isDigit ∧ o1.isDigit ∧ o2.isDigit ∧
        d1.isDigit ∧ d2.isDigit ∧ h1.isDigit ∧ h2.isDigit ∧ i1.isDigit ∧ i2.isDigit ∧
        s1.isDigit ∧ s2.isDigit) then
      .ok { year := twoDigits y1 y2 * 100 + twoDigits y3 y4, month := twoDigits o1 o2,
            day := twoDigits d1 d2, hour := twoDigits h1 h2, minute := twoDigits i1 i2,
            second := twoDigits s1 s2 }
    else
      .error (.InvalidValue (parse.parse_error_message "" path line 0 line.length lineno))
  | _ =>
    .error (.InvalidValue (parse.parse_error_message "" path line 0 line.length lineno))

/-- The richer configuration record of src/article.rs (it adds the optional
`date` field). -/
structure Config where
  layout : String
  base_layout : String
  title : String
  description : String
  permalink : String
  categories : List String
  tags : List String
  visible : Bool
  date : Option DateTime
deriving DecidableEq, Repr

/-- The `Default` impl of `Config` in src/article.rs. -/
def Config.default : Config :=
  { layout := ""
    base_layout := "default"
    title := ""
    description := ""
    permalink := ""
    categories := []
    tags := []
    visible := false
    date := none }

/-- `Config::is_valid` of src/article.rs (same rule as the simpler variant:
`base_layout` is not consulted). -/
def Config.is_valid (c : Config) : Bool :=
  !(c.layout.isEmpty || c.title.isEmpty)

/-- The `match key` dispatch of the `parse` loop in src/article.rs: the
richer variant recognizes `titlebar` (not `visible`) for the boolean and
additionally `date`. -/
def apply_key (path line : String) (n : Int) (c : Config) (key rest : String) :
    Except parse.ParseError Config :=
  match key with
  | "layout" =>
    match parse.parse_value_string (myTrim rest) path line n with
    | .error e => .error e
    | .ok v => .ok { c with layout := v }
  | "base_layout" =>
    match parse.parse_value_string (myTrim rest) path line n with
    | .error e => .error e
    | .ok v => .ok { c with base_layout := v }
  | "title" =>
    match parse.parse_value_string (myTrim rest) path line n with
    | .error e => .error e
    | .ok v => .ok { c with title := v }
  | "description" =>
    match parse.parse_value_string (myTrim rest) path line n with
    | .error e => .error e
    | .ok v => .ok { c with description := v }
  | "permalink" =>
    match parse.parse_value_string (myTrim rest) path line n with
    | .error e => .error e
    | .ok v => .ok { c with permalink := v }
  | "categories" =>
    match parse.parse_value_list (myTrim rest) path line n with
    | .error e => .error e
    | .ok v => .ok { c with categories := v }
  | "tags" =>
    match parse.parse_value_list (myTrim rest) path line n with
    | .error e => .error e
    | .ok v => .ok { c with tags := v }
  | "titlebar" =>
    match parse.parse_value_boolean (myTrim rest) path line n with
    | .error e => .error e
    | .ok v => .ok { c with visible := v }
  | "date" =>
    match parse_value_time (myTrim rest) path line n with
    | .error e => .error e
    | .ok v => .ok { c with date := some v }
  | _ =>
    .error (.InvalidKey (parse.parse_error_message "unknown key" path line 0
      (line.length - 1) n))

/-- Loop state of the `parse` function in src/article.rs. -/
structure PState where
  found_config : Bool
  line_n : Int
  config : Config
  body : String
  reached_end : Bool
deriving DecidableEq, Repr

/-- Initial loop state of `parse` in src/article.rs. -/
def initState : PState :=
  { found_config := false, line_n := 1, config := Config.default,
    body := "", reached_end := false }

/-- One iteration of the line loop of `parse` in src/article.rs, with the
same branch order as the source `if`/`else if` chain. -/
def step (path : String) (st : PState) (line : String) :
    Except parse.ParseError PState :=
  if st.found_config = false ∧ line = "---" then
    .ok { st with found_config := true, line_n := st.line_n + 1 }
  else if st.found_config = true ∧ line = "---" then
    .ok { st with reached_end := true, found_config := false, line_n := st.line_n + 1 }
  else if st.reached_end = true then
    .ok { st with body := st.body ++ line ++ "\n" }
  else if st.found_config = true then
    match parse.parse_key line path line st.line_n with
    | .error e => .error e
    | .ok (key, rest) =>
      match apply_key path line st.line_n st.config key rest with
      | .error e => .error e
      | .ok c => .ok { st with config := c, line_n := st.line_n + 1 }
  else
    .error (.InvalidConfig (parse.parse_error_message
      "configuration needs to start with \x27---\x27 for the first line"
      path line 0 line.length st.line_n))

/-- End-of-input validation of `parse` in src/article.rs (textually the same
classification chain as in src/parse.rs). -/
def finish (st : PState) : Except parse.ParseError (Config × String) :=
  if st.config.is_valid then
    .ok (st.config, st.body)
  else if st.line_n = 2 then
    .error (.InvalidConfig ("empty config no key value pairs found in " ++ "test.txt"))
  else if st.reached_end = false then
    .error (.InvalidConfig "no at \x27---\x27 for the last line of the configuration")
  else if st.config.title = "" then
    .error (.InvalidConfig "missing configuration \x27title\x27 field")
  else
    .error (.InvalidConfig
      "missing configuration \x27layout\x27 field or \x27base_layout\x27 to be set to a custom value")

/-- The module-level `parse` function of src/article.rs over the input lines. -/
def parse (lines : List String) (path : String) :
    Except parse.ParseError (Config × String) :=
  match lines.foldlM (step path) initState with
  | .error e => .error e
  | .ok st => finish st

/-- The inner `config` object of the `liquid::object!` literal built in
src/article.rs. -/
structure LiquidConfig where
  title : String
  description : String
  tags : List String
  categories : List String
  visible : Bool
  layout : String
deriving DecidableEq, Repr

/-- The `config_liquid` rendering-context object of src/article.rs
(`content`, nested `config`, `url`). -/
structure ConfigLiquid where
  content : String
  config : LiquidConfig
  url : String
deriving DecidableEq, Repr

/-- The `Article` struct of src/article.rs. -/
structure Article where
  template : String
  config : Config
  url : String
  config_liquid : ConfigLiquid
deriving DecidableEq, Repr

/-- The `liquid::object!` context `\x7bglobal, page, layout\x7d` passed to the
templating engine by `pre_render` and `render`; the engine itself is an
external collaborator, so the global object type is a parameter. -/
structure RenderCtx (G : Type) where
  global : G
  page : ConfigLiquid
  layout : String

/-- The synthetic one-line template `\x7b%- include \x27name\x27 -%\x7d` built by
`render` in src/article.rs. -/
def includeDirective (name : String) : String :=
  "\x7b%- include \x27" ++ name ++ "\x27 -%\x7d"

/-- The `config_liquid` object as (re)built by `Article::parse` and
`pre_render` in src/article.rs. -/
def buildLiquid (template : String) (config : Config) (url : String) : ConfigLiquid :=
  { content := template
    config :=
      { title := config.title, description := config.description,
        tags := config.tags, categories := config.categories,
        visible := config.visible, layout := config.layout }
    url := url }

end article

/-- `Article::parse` of src/article.rs: parse the file, trim the body into
the template, derive the url (permalink if non-empty, else title plus
`.html`, spaces replaced by `%20`), and build the rendering context. -/
def article.Article.parse (lines : List String) (path : String) :
    Except parse.ParseError article.Article :=
  match article.parse lines path with
  | .error e => .error e
  | .ok (config, content) =>
    let template := myTrim content
    let url := rustReplace
      (if config.permalink = "" then config.title ++ ".html" else config.permalink)
      " " "%20"
    .ok { template := template, config := config, url := url,
          config_liquid := article.buildLiquid template config url }

namespace article

/-- `Article::pre_render` of src/article.rs: run the body through the
templating engine (an oracle argument `engine`, combining `parser.parse`
and `Template::render`), optionally convert the result with the markdown
converter (oracle `mdConv`), and rebuild the rendering context; `url` and
`config` are untouched. -/
def Article.pre_render {G E : Type} (engine : String → RenderCtx G → Except E String)
    (mdConv : String → String) (g : G) (md : Bool) (a : Article) :
    Except E Article :=
  match engine a.template ⟨g, a.config_liquid, a.config.layout⟩ with
  | .error e => .error e
  | .ok t =>
    let template := if md then mdConv t else t
    .ok { a with template := template,
                 config_liquid := buildLiquid template a.config a.url }

/-- The layout-selection step of `Article::render` in src/article.rs: the
string handed to the templating engine, with the branch structure of the
source (the warning calls do not affect the result and are omitted). -/
def Article.render_template_source (a : Article) : String :=
  if a.config.base_layout = "" then
    if a.config.layout = "" then
      includeDirective a.config.layout
    else
      a.template
  else
    includeDirective a.config.base_layout

/-- `Article::render` of src/article.rs: render the selected wrapping
template against the final context. -/
def Article.render {G E : Type} (engine : String → RenderCtx G → Except E String)
    (g : G) (a : Article) : Except E String :=
  engine a.render_template_source ⟨g, a.config_liquid, a.config.layout⟩

/-- `Article::true_render` of src/article.rs: the two `pre_render` phases
followed by the layout composition. -/
def Article.true_render {G E : Type} (engine : String → RenderCtx G → Except E String)
    (mdConv : String → String) (g : G) (a : Article) : Except E String :=
  match a.pre_render engine mdConv g false with
  | .error e => .error e
  | .ok a1 =>
    match a1.pre_render engine mdConv g true with
    | .error e => .error e
    | .ok a2 => a2.render engine g

end article

namespace lib

/-- One line of the scan of `parse_backtrace` in src/lib.rs, acting on the
state pair (the `inside_include` flag, the accumulated `msg`); every
branch ends by appending the `"\n"` that the source adds after the
`if`/`else if` chain.  The side table `templates` is the
`includes_paths` map, modelled as an association list. -/
def bt_step (templates : List (String × String)) (st : Bool × String)
    (line : String) : Bool × String :=
  if startsWithS "from: \x7b% include" line then
    (true, st.2 ++ line ++ "\n")
  else if st.1 = true ∧ startsWithS "    \x22" line then
    match strFind (line.data.drop 5) '\x22' with
    | some index =>
      match templates.lookup (⟨(line.data.drop 5).take index⟩ : String) with
      | some path =>
        (st.1, st.2 ++ line ++ "\n    " ++ (⟨(line.data.drop 5).take index⟩ : String) ++
          " = " ++ path ++ "\n")
      | none => (st.1, st.2 ++ "\n")
    | none => (st.1, st.2 ++ line ++ "\n")
  else if st.1 = false ∧ line = "\twith:" then
    (false, st.2 ++ line ++ "\n")
  else
    (st.1, st.2 ++ line ++ "\n")

/-- `parse_backtrace` of src/lib.rs: scan the error text line by line. -/
def parse_backtrace (error : String) (templates : List (String × String)) :
    String :=
  (((splitNl error.data).map (fun l => (⟨l⟩ : String))).foldl (bt_step templates)
    (false, "")).2

/-- A markdown source file as seen by `Build::articles` in src/lib.rs:
whether `File::open` succeeds, the lines of the file, and its path. -/
structure MdFile where
  ok : Bool
  lines : List String
  path : String

/-- A source directory handed to `Build::articles` in src/lib.rs: whether
`dir.exists() && dir.is_dir()` holds, and the markdown files found in it. -/
structure SrcDir where
  isdir : Bool
  files : List MdFile

/-- The per-directory file loop of `Build::articles` in src/lib.rs: parse
each openable file, keep the successes, log and skip the failures. -/
def load_dir (files : List MdFile) (acc : List article.Article) :
    List article.Article :=
  match files with
  | [] => acc
  | f :: fs =>
    if f.ok then
      match article.Article.parse f.lines f.path with
      | .ok art => load_dir fs (acc ++ [art])
      | .error _ => load_dir fs acc
    else
      load_dir fs acc

/-- `Build::articles` of src/lib.rs: for each supplied directory that exists
and is a directory, panic (`Except.error`, carrying the article list as it
stood at the abort) when the layout list is empty, otherwise parse its
files; a directory that does not exist is logged and skipped. -/
def articles_load (layouts : List String) (dirs : List SrcDir)
    (acc : List article.Article) : Except (List article.Article) (List article.Article) :=
  match dirs with
  | [] => .ok acc
  | d :: ds =>
    if d.isdir then
      if layouts = [] then
        .error acc
      else
        articles_load layouts ds (load_dir d.files acc)
    else
      articles_load layouts ds acc

end lib

/-- Configuration fixture with an empty `base_layout` and a non-empty
`layout` (such a value cannot be produced by the header parser, which
rejects empty values, but `render` branches on it). -/
def c2Config : article.Config :=
  { layout := "page", base_layout := "", title := "t", description := "",
    permalink := "", categories := [], tags := [], visible := false, date := none }

/-- Article fixture around `c2Config`. -/
def c2ArticleLayoutOnly : article.Article :=
  { template := "BODY", config := c2Config, url := "t.html",
    config_liquid := article.buildLiquid "BODY" c2Config "t.html" }

/-- Configuration fixture with both `base_layout` and `layout` empty. -/
def c2ConfigNone : article.Config := { c2Config with layout := "" }

/-- Article fixture around `c2ConfigNone`. -/
def c2ArticleNoLayout : article.Article :=
  { template := "BODY", config := c2ConfigNone, url := "t.html",
    config_liquid := article.buildLiquid "BODY" c2ConfigNone "t.html" }

/-- Input lines of a well-formed article used by several witnesses. -/
def exampleLines : List String :=
  ["---", "layout:page", "title:cats and dogs", "---", "hi"]

/-- The article that `Article::parse` produces from `exampleLines`. -/
def exampleArticle : article.Article :=
  { template := "hi",
    config := { layout := "page", base_layout := "default", title := "cats and dogs",
                description := "", permalink := "", categories := [], tags := [],
                visible := false, date := none },
    url := "cats%20and%20dogs.html",
    config_liquid := { content := "hi",
                       config := { title := "cats and dogs", description := "",
                                   tags := [], categories := [], visible := false,
                                   layout := "page" },
                       url := "cats%20and%20dogs.html" } }


/-- Character-level description of `replaceCore` for the single-space
pattern: every space becomes the substitute, every other character is
kept, provided the fuel covers the list. -/
lemma replaceCore_space (sub : List Char) :
    ∀ (fuel : Nat) (l : List Char), l.length ≤ fuel →
      replaceCore ' ' [] sub fuel l =
        l.flatMap (fun c => if c = ' ' then sub else [c]) := by
  intro fuel
  induction fuel with
  | zero =>
    intro l hl
    have : l = [] := List.length_eq_zero.mp (Nat.le_zero.mp hl)
    subst this
    rfl
  | succ fuel ih =>
    intro l hl
    cases l with
    | nil => rfl
    | cons c cs =>
      have hcs : cs.length ≤ fuel := by simp at hl; omega
      simp only [replaceCore, List.isPrefixOf, and_true, List.length_nil, List.drop_zero,
        List.flatMap_cons]
      by_cases hc : c = ' '
      · rw [if_pos hc, ih cs hcs, if_pos hc]
      · rw [if_neg hc, ih cs hcs, if_neg hc]
        rfl

/-- The space-to-percent-20 replacement of the url derivation, characterised
per character. -/
lemma rustReplace_space (s : String) :
    (rustReplace s " " "%20").data =
      s.data.flatMap (fun c => if c = ' ' then "%20".data else [c]) := by
  show (replaceCore ' ' [] "%20".data s.data.length s.data) =
    s.data.flatMap (fun c => if c = ' ' then "%20".data else [c])
  exact replaceCore_space _ _ _ (Nat.le_refl _)

/-- String concatenation concatenates the character lists. -/
lemma data_append (s t : String) : (s ++ t).data = s.data ++ t.data := rfl

/-- Repacking the character list of a string gives the string back. -/
lemma mk_data (s : String) : String.mk s.data = s := rfl

/-- A character that does not occur in a list is not found. -/
lemma strFind_not_mem (c : Char) : ∀ (l : List Char), c ∉ l → strFind l c = none := by
  intro l
  induction l with
  | nil => intro _; rfl
  | cons a as ih =>
    intro h
    simp only [List.mem_cons, not_or] at h
    simp only [strFind]
    rw [if_neg (fun hh => h.1 hh.symm), ih h.2]
    rfl

/-- The first occurrence of `c` after a `c`-free prefix is at the length of
that prefix. -/
lemma strFind_append_self (c : Char) : ∀ (l r : List Char), c ∉ l →
    strFind (l ++ c :: r) c = some l.length := by
  intro l
  induction l with
  | nil => intro r _; simp [strFind]
  | cons a as ih =>
    intro r h
    simp only [List.mem_cons, not_or] at h
    simp only [List.cons_append, strFind, List.append_eq]
    rw [if_neg (fun hh => h.1 hh.symm), ih r h.2]
    rfl

/-- A list is a prefix of itself followed by anything. -/
lemma isPrefixOf_append_self : ∀ (l r : List Char), l.isPrefixOf (l ++ r) = true := by
  intro l r
  induction l with
  | nil => simp [List.isPrefixOf]
  | cons a as ih => simp [List.isPrefixOf, ih]

/-- Character list of an indented quoted token line with a closing quote. -/
lemma bt_line_data (name rest0 : String) :
    ("    \x22" ++ name ++ "\x22" ++ rest0).data =
      "    \x22".data ++ (name.data ++ '\x22' :: rest0.data) := by
  simp [data_append, List.append_assoc]

/-- Dropping the four spaces and the opening quote of a token line. -/
lemma bt_drop5 (name rest0 : String) :
    ("    \x22" ++ name ++ "\x22" ++ rest0).data.drop 5 =
      name.data ++ '\x22' :: rest0.data := by
  rw [bt_line_data, show (5 : Nat) = "    \x22".data.length from rfl, List.drop_left]

/-- A token line starts with four spaces and a quote. -/
lemma bt_prefix (name rest0 : String) :
    startsWithS "    \x22" ("    \x22" ++ name ++ "\x22" ++ rest0) = true := by
  unfold startsWithS
  rw [bt_line_data]
  exact isPrefixOf_append_self _ _

/-- Character list of a token line without a closing quote. -/
lemma bt_line_data2 (name : String) :
    ("    \x22" ++ name).data = "    \x22".data ++ name.data := by
  simp [data_append]

/-- A quote-less token line also starts with four spaces and a quote. -/
lemma bt_prefix2 (name : String) :
    startsWithS "    \x22" ("    \x22" ++ name) = true := by
  unfold startsWithS
  rw [bt_line_data2]
  exact isPrefixOf_append_self _ _

/-- Dropping the four spaces and the opening quote of a quote-less token
line. -/
lemma bt_drop5b (name : String) :
    ("    \x22" ++ name).data.drop 5 = name.data := by
  rw [bt_line_data2, show (5 : Nat) = "    \x22".data.length from rfl, List.drop_left]


/-- C1: the claim states that the empty input yields the precedence case (1)
error whose message contains "empty config no key value pairs found".  On
the code the empty input leaves the line counter at 1, so the case (1)
check `line_n == 2` fails and both parser variants return the case (2)
missing-closing-delimiter message, which does not contain the claimed
text. -/
theorem C1_empty_input_counterexample :
    parse.parse [] "article.md" =
      .error (.InvalidConfig "no at \x27---\x27 for the last line of the configuration") ∧
    article.parse [] "article.md" =
      .error (.InvalidConfig "no at \x27---\x27 for the last line of the configuration") ∧
    ¬ ("empty config no key value pairs found".data <:+:
       "no at \x27---\x27 for the last line of the configuration".data) := by
  decide

/-- C1 amended: for the empty input both parser variants return the
InvalidConfig error "no at \x27---\x27 for the last line of the configuration"
(case (2)); the case (1) error "empty config no key value pairs found" is
returned exactly for an input consisting solely of the opening delimiter
line, where exactly one counted line leaves the line counter at 2. -/
theorem C1_empty_input_amended :
    ∀ path : String,
      parse.parse [] path =
        .error (.InvalidConfig "no at \x27---\x27 for the last line of the configuration") ∧
      article.parse [] path =
        .error (.InvalidConfig "no at \x27---\x27 for the last line of the configuration") ∧
      parse.parse ["---"] path =
        .error (.InvalidConfig "empty config no key value pairs found in test.txt") ∧
      article.parse ["---"] path =
        .error (.InvalidConfig "empty config no key value pairs found in test.txt") := by
  intro path
  exact ⟨rfl, rfl, rfl, rfl⟩

/-- C2: the layout-selection branches of `Article::render` are swapped
relative to the claim (and to the warning messages of the source itself).
With `base_layout` empty and `layout` non-empty the code hands the raw
body to the engine instead of an include of `layout`; with both empty it
hands an include of the empty name instead of the raw body. -/
theorem C2_render_selection_code_bug :
    c2ArticleLayoutOnly.render_template_source = "BODY" ∧
    c2ArticleLayoutOnly.render_template_source ≠ article.includeDirective "page" ∧
    c2ArticleNoLayout.render_template_source = article.includeDirective "" ∧
    c2ArticleNoLayout.render_template_source ≠ "BODY" := by
  decide

/-- C3: in the richer parser variant of src/article.rs, a header with a
non-empty title, an empty layout and a custom non-default `base_layout`
is still rejected: `Config::is_valid` never consults `base_layout`, so
the parse returns the missing-layout InvalidConfig error whose own text
promises that a custom `base_layout` would have sufficed. -/
theorem C3_richer_validity_code_bug :
    article.parse ["---", "title:cats", "base_layout:custom", "---", "body"] "p" =
      .error (.InvalidConfig
        "missing configuration \x27layout\x27 field or \x27base_layout\x27 to be set to a custom value") ∧
    ("custom" ≠ "default" ∧ "custom" ≠ "") := by
  decide

/-- C4: the claim states that an indented quoted token naming a template
absent from the side table is passed through without annotation, never
dropped, so the output contains every input line.  On the code the branch
for a known name appends the annotated line, but the branch for an
unknown name appends nothing except the trailing newline: the line is
dropped from the output. -/
theorem C4_backtrace_counterexample :
    lib.parse_backtrace "from: \x7b% include\n    \x22missing\x22" [] =
      "from: \x7b% include\n\n" ∧
    ¬ ("    \x22missing\x22".data <:+: "from: \x7b% include\n\n".data) := by
  decide

/-- C5: the claim states that every line after the closing delimiter,
including a line that is exactly the delimiter, is appended verbatim to
the body.  On the code a body line that is exactly `---` matches the
first branch of the loop (`!found_config && line == "---"`), flips the
parser back into the header state and is not appended: parsing
`a / --- / b` as the body yields `"a\nb\n"`, which does not contain the
delimiter line. -/
theorem C5_body_delimiter_counterexample :
    parse.parse ["---", "layout:page", "title:t", "---", "a", "---", "b"] "p" =
      .ok ({ layout := "page", base_layout := "default", title := "t",
             description := "", permalink := "", categories := [], tags := [],
             visible := false }, "a\nb\n") ∧
    ¬ ("---".data <:+: "a\nb\n".data) := by
  decide

/-- C6: the claim states the two quote states are tracked independently,
the end state of each kind depending solely on the occurrences of that
same character.  On the code a double quote occurring inside an open
single-quoted span does not toggle the double-quote state: the input
consisting of the five characters single-quote, double-quote,
single-quote, `a`, double-quote has an even number of double quotes, yet
the scan ends with the double-quote state open and reports the unclosed
double quote. -/
theorem C6_quote_independence_counterexample :
    parse.parse_value_list "\x27\x22\x27a\x22" "p" "\x27\x22\x27a\x22" 1 =
      .error (.InvalidValue (parse.parse_error_message
        "found a string but no closing \x22" "p" "\x27\x22\x27a\x22" 4 5 1)) ∧
    ("\x27\x22\x27a\x22".data.count '\x22') % 2 = 0 := by
  decide

set_option maxRecDepth 8192 in
/-- C7: the claim states the trailing-comma message contains "value
expected after separator".  The code emits "value expected after
semi-colon"; the full diagnostic for the spec example `a, b,` does not
contain the claimed text. -/
theorem C7_separator_message_counterexample :
    parse.parse_value_list "a, b," "test.txt" "a, b," 1 =
      .error (.InvalidValue (parse.parse_error_message
        "value expected after semi-colon" "test.txt" "a, b," 5 10 1)) ∧
    ¬ ("value expected after separator".data <:+:
       (parse.parse_error_message "value expected after semi-colon" "test.txt"
         "a, b," 5 10 1).data) := by
  decide

/-- C8: the claim states that every invocation of article loading with an
empty layout set aborts unconditionally with a panic.  On the code the
panic sits inside the per-directory loop behind the `dir.exists() &&
dir.is_dir()` check, so an invocation with no directories, or with only
directories that do not exist, returns normally even though the layout
set is empty. -/
theorem C8_no_dir_no_panic_counterexample :
    lib.articles_load [] [] [] = .ok [] ∧
    lib.articles_load [] [{ isdir := false, files := [] }] [] = .ok [] := by
  exact ⟨rfl, rfl⟩

/-- C4 amended: the backtrace translator is total; a line matching neither
pattern is copied through unchanged and leaves the mode flag alone; a line
starting with the include-failure marker enters include mode and is copied;
inside include mode an indented quoted token found in the side table gains
the appended name = path annotation; an indented quoted token with a
closing quote whose name is absent from the table is dropped (only the
newline is emitted); a token line without a closing quote is copied
through unchanged. -/
theorem C4_backtrace_amended :
    (∀ (t : List (String × String)) (st : Bool × String) (line : String),
      startsWithS "from: \x7b% include" line = false →
      (st.1 = true → startsWithS "    \x22" line = false) →
      lib.bt_step t st line = (st.1, st.2 ++ line ++ "\n")) ∧
    (∀ (t : List (String × String)) (st : Bool × String) (line : String),
      startsWithS "from: \x7b% include" line = true →
      lib.bt_step t st line = (true, st.2 ++ line ++ "\n")) ∧
    (∀ (t : List (String × String)) (st : Bool × String) (name path0 rest0 : String),
      st.1 = true →
      startsWithS "from: \x7b% include" ("    \x22" ++ name ++ "\x22" ++ rest0) = false →
      '\x22' ∉ name.data →
      t.lookup name = some path0 →
      lib.bt_step t st ("    \x22" ++ name ++ "\x22" ++ rest0) =
        (st.1, st.2 ++ ("    \x22" ++ name ++ "\x22" ++ rest0) ++ "\n    " ++ name ++
          " = " ++ path0 ++ "\n")) ∧
    (∀ (t : List (String × String)) (st : Bool × String) (name rest0 : String),
      st.1 = true →
      startsWithS "from: \x7b% include" ("    \x22" ++ name ++ "\x22" ++ rest0) = false →
      '\x22' ∉ name.data →
      t.lookup name = none →
      lib.bt_step t st ("    \x22" ++ name ++ "\x22" ++ rest0) = (st.1, st.2 ++ "\n")) ∧
    (∀ (t : List (String × String)) (st : Bool × String) (name : String),
      st.1 = true →
      startsWithS "from: \x7b% include" ("    \x22" ++ name) = false →
      '\x22' ∉ name.data →
      lib.bt_step t st ("    \x22" ++ name) =
        (st.1, st.2 ++ ("    \x22" ++ name) ++ "\n")) := by
  refine ⟨?_, ?_, ?_, ?_, ?_⟩
  · intro t st line h1 h2
    unfold lib.bt_step
    rw [if_neg (by simp [h1])]
    rw [if_neg (fun hc => absurd hc.2 (by simp [h2 hc.1]))]
    by_cases h3 : st.1 = false ∧ line = "\twith:"
    · rw [if_pos h3, h3.1]
    · rw [if_neg h3]
  · intro t st line h
    unfold lib.bt_step
    rw [if_pos h]
  · intro t st name path0 rest0 hst hm hq hlook
    unfold lib.bt_step
    rw [if_neg (by simp [hm]), if_pos ⟨hst, bt_prefix name rest0⟩, bt_drop5,
      strFind_append_self _ _ _ hq]
    simp only [List.take_left, mk_data, hlook]
  · intro t st name rest0 hst hm hq hlook
    unfold lib.bt_step
    rw [if_neg (by simp [hm]), if_pos ⟨hst, bt_prefix name rest0⟩, bt_drop5,
      strFind_append_self _ _ _ hq]
    simp only [List.take_left, mk_data, hlook]
  · intro t st name hst hm hq
    unfold lib.bt_step
    rw [if_neg (by simp [hm]), if_pos ⟨hst, bt_prefix2 name⟩, bt_drop5b,
      strFind_not_mem _ _ hq]

/-- C4 amended, witness: the five behaviours of the translator step at
concrete inputs. -/
theorem C4_backtrace_amended_witness :
    lib.bt_step [] (false, "") "hello" = (false, "hello\n") ∧
    lib.bt_step [] (false, "") "from: \x7b% include" = (true, "from: \x7b% include\n") ∧
    lib.bt_step [("known", "kpath")] (true, "") "    \x22known\x22" =
      (true, "    \x22known\x22\n    known = kpath\n") ∧
    lib.bt_step [] (true, "") "    \x22missing\x22" = (true, "\n") ∧
    lib.bt_step [] (true, "") "    \x22noclose" = (true, "    \x22noclose\n") :=
  ⟨C4_backtrace_amended.1 [] (false, "") "hello" (by decide) (by decide),
   C4_backtrace_amended.2.1 [] (false, "") "from: \x7b% include" (by decide),
   C4_backtrace_amended.2.2.1 [("known", "kpath")] (true, "") "known" "kpath" ""
     rfl (by decide) (by decide) (by decide),
   C4_backtrace_amended.2.2.2.1 [] (true, "") "missing" "" rfl (by decide) (by decide) rfl,
   C4_backtrace_amended.2.2.2.2 [] (true, "") "noclose" rfl (by decide) (by decide)⟩

/-- C5 amended: in the body state (closing delimiter seen), any line other
than exactly the delimiter is appended verbatim plus a newline with the
state otherwise unchanged (this covers a mid-line delimiter as in
cat---dog, since only whole-line equality is tested); a body line exactly
equal to the delimiter is not appended: it flips found_config back on,
re-entering the header state.  Both parser variants behave alike. -/
theorem C5_body_lines_amended :
    (∀ (path : String) (st : parse.PState) (line : String),
      st.reached_end = true →
      (line ≠ "---" →
        parse.step path st line = .ok { st with body := st.body ++ line ++ "\n" }) ∧
      (st.found_config = false → line = "---" →
        parse.step path st line =
          .ok { st with found_config := true, line_n := st.line_n + 1 })) ∧
    (∀ (path : String) (st : article.PState) (line : String),
      st.reached_end = true →
      (line ≠ "---" →
        article.step path st line = .ok { st with body := st.body ++ line ++ "\n" }) ∧
      (st.found_config = false → line = "---" →
        article.step path st line =
          .ok { st with found_config := true, line_n := st.line_n + 1 })) := by
  constructor
  · intro path st line hre
    refine ⟨fun hne => ?_, fun hfc heq => ?_⟩
    · unfold parse.step
      rw [if_neg (fun h => hne h.2), if_neg (fun h => hne h.2), if_pos hre]
    · subst heq
      unfold parse.step
      rw [if_pos ⟨hfc, rfl⟩]
  · intro path st line hre
    refine ⟨fun hne => ?_, fun hfc heq => ?_⟩
    · unfold article.step
      rw [if_neg (fun h => hne h.2), if_neg (fun h => hne h.2), if_pos hre]
    · subst heq
      unfold article.step
      rw [if_pos ⟨hfc, rfl⟩]

/-- C5 amended, witness: a mid-line delimiter body line is appended
verbatim, a whole-line delimiter flips back into the header state. -/
theorem C5_body_lines_amended_witness :
    parse.step "p" ⟨false, 5, parse.Config.default, "", true⟩ "cat---dog" =
      .ok ⟨false, 5, parse.Config.default, "cat---dog\n", true⟩ ∧
    parse.step "p" ⟨false, 5, parse.Config.default, "", true⟩ "---" =
      .ok ⟨true, 6, parse.Config.default, "", true⟩ ∧
    article.step "p" ⟨false, 5, article.Config.default, "", true⟩ "cat---dog" =
      .ok ⟨false, 5, article.Config.default, "cat---dog\n", true⟩ :=
  ⟨(C5_body_lines_amended.1 "p" ⟨false, 5, parse.Config.default, "", true⟩
      "cat---dog" rfl).1 (by decide),
   (C5_body_lines_amended.1 "p" ⟨false, 5, parse.Config.default, "", true⟩
      "---" rfl).2 rfl rfl,
   (C5_body_lines_amended.2 "p" ⟨false, 5, article.Config.default, "", true⟩
      "cat---dog" rfl).1 (by decide)⟩

/-- C6 amended: a comma while either quote flag is set does not split (no
element is pushed, prev is unchanged); a quote character of one kind while
the other kind's span is open is inert; a quote character toggles its own
flag when the other kind's span is closed; consequently quoted commas of
either kind do not split, as on the repo's own test inputs. -/
theorem C6_quote_tracking_amended :
    (∀ (rest : List Char) (path line : String) (n : Int) (cs : List Char)
       (i prev : Nat) (inSL : Bool) (acc : List String),
      parse.list_core rest path line n (',' :: cs) i prev true inSL acc =
        parse.list_core rest path line n cs (i + 1) prev true inSL acc) ∧
    (∀ (rest : List Char) (path line : String) (n : Int) (cs : List Char)
       (i prev : Nat) (inS : Bool) (acc : List String),
      parse.list_core rest path line n (',' :: cs) i prev inS true acc =
        parse.list_core rest path line n cs (i + 1) prev inS true acc) ∧
    (∀ (rest : List Char) (path line : String) (n : Int) (cs : List Char)
       (i prev : Nat) (inS : Bool) (acc : List String),
      parse.list_core rest path line n ('\x22' :: cs) i prev inS true acc =
        parse.list_core rest path line n cs (i + 1) prev inS true acc) ∧
    (∀ (rest : List Char) (path line : String) (n : Int) (cs : List Char)
       (i prev : Nat) (inSL : Bool) (acc : List String),
      parse.list_core rest path line n ('\x27' :: cs) i prev true inSL acc =
        parse.list_core rest path line n cs (i + 1) prev true inSL acc) ∧
    (∀ (rest : List Char) (path line : String) (n : Int) (cs : List Char)
       (i prev : Nat) (inS : Bool) (acc : List String),
      parse.list_core rest path line n ('\x22' :: cs) i prev inS false acc =
        parse.list_core rest path line n cs (i + 1) prev (!inS) false acc) ∧
    (∀ (rest : List Char) (path line : String) (n : Int) (cs : List Char)
       (i prev : Nat) (inSL : Bool) (acc : List String),
      parse.list_core rest path line n ('\x27' :: cs) i prev false inSL acc =
        parse.list_core rest path line n cs (i + 1) prev false (!inSL) acc) ∧
    parse.parse_value_list "\x27,a\x27, \x27b\x27" "p" "\x27,a\x27, \x27b\x27" 1 =
      .ok ["\x27,a\x27", "\x27b\x27"] ∧
    parse.parse_value_list "\x22,a\x22, \x22b\x22" "p" "\x22,a\x22, \x22b\x22" 1 =
      .ok ["\x22,a\x22", "\x22b\x22"] := by
  refine ⟨?_, ?_, ?_, ?_, ?_, ?_, by decide, by decide⟩
  all_goals intro rest path line n cs i prev b acc
  all_goals simp [parse.list_core]

/-- C7 amended: the trailing-comma diagnostic of parse_value_list reads
"value expected after semi-colon" (for any diagnostic parameters), a
scalar value blank after trimming is an EmptyValue "empty value" error,
and so is a blank list element. -/
theorem C7_trailing_comma_amended :
    (∀ (path line : String) (n : Int),
      parse.parse_value_list "a, b," path line n =
        .error (.InvalidValue (parse.parse_error_message "value expected after semi-colon"
          path line line.length (line.length + 5) n))) ∧
    (∀ (s path line : String) (n : Int), myTrim s = "" →
      parse.parse_value_string s path line n =
        .error (.EmptyValue (parse.parse_error_message "empty value" path line
          line.length (line.length + 5) n))) ∧
    (∀ (path line : String) (n : Int),
      parse.parse_value_list "a,,b" path line n =
        .error (.EmptyValue (parse.parse_error_message "empty value" path line
          line.length (line.length + 5) n))) := by
  refine ⟨fun path line n => ?_, fun s path line n h => ?_, fun path line n => ?_⟩
  · rfl
  · simp only [parse.parse_value_string, h]
    rfl
  · rfl

/-- C7 amended, witness: the three error shapes at concrete inputs. -/
theorem C7_trailing_comma_amended_witness :
    parse.parse_value_list "a, b," "test.txt" "a, b," 1 =
      .error (.InvalidValue (parse.parse_error_message "value expected after semi-colon"
        "test.txt" "a, b," 5 10 1)) ∧
    parse.parse_value_string "  " "p" "k:  " 2 =
      .error (.EmptyValue (parse.parse_error_message "empty value" "p" "k:  " 4 9 2)) ∧
    parse.parse_value_list "a,,b" "p" "a,,b" 3 =
      .error (.EmptyValue (parse.parse_error_message "empty value" "p" "a,,b" 4 9 3)) :=
  ⟨C7_trailing_comma_amended.1 "test.txt" "a, b," 1,
   C7_trailing_comma_amended.2.1 "  " "p" "k:  " 2 (by decide),
   C7_trailing_comma_amended.2.2 "p" "a,,b" 3⟩

/-- C8 amended: with an empty layout list, Build::articles panics as soon
as some supplied directory exists (the panic carries the article list as
it stood, which is exactly the initial one: no article was parsed), and
returns normally with the article list unchanged when no supplied
directory exists. -/
theorem C8_empty_layouts_amended :
    ∀ (dirs : List lib.SrcDir) (acc : List article.Article),
      ((∃ d ∈ dirs, d.isdir = true) → lib.articles_load [] dirs acc = .error acc) ∧
      ((∀ d ∈ dirs, d.isdir = false) → lib.articles_load [] dirs acc = .ok acc) := by
  intro dirs acc
  induction dirs with
  | nil =>
    refine ⟨fun h => ?_, fun _ => rfl⟩
    simp at h
  | cons d ds ih =>
    refine ⟨fun h => ?_, fun h => ?_⟩
    · by_cases hd : d.isdir = true
      · unfold lib.articles_load
        rw [if_pos hd, if_pos rfl]
      · unfold lib.articles_load
        rw [if_neg hd]
        rcases h with ⟨e, he, het⟩
        rcases List.mem_cons.mp he with rfl | hmem
        · exact absurd het hd
        · exact ih.1 ⟨e, hmem, het⟩
    · have hd : d.isdir = false := h d (List.mem_cons_self d ds)
      unfold lib.articles_load
      rw [if_neg (by simp [hd])]
      exact ih.2 fun e he => h e (List.mem_cons_of_mem d he)

/-- C8 amended, witness: one existing directory panics with the untouched
article list; one non-existing directory returns normally. -/
theorem C8_empty_layouts_amended_witness :
    lib.articles_load [] [{ isdir := true, files := [] }] [] = .error [] ∧
    lib.articles_load [] [{ isdir := false, files := [] }] [] = .ok [] :=
  ⟨(C8_empty_layouts_amended [{ isdir := true, files := [] }] []).1
      ⟨{ isdir := true, files := [] }, by simp, rfl⟩,
   (C8_empty_layouts_amended [{ isdir := false, files := [] }] []).2 (by simp)⟩

/-- C9: for every successfully parsed article the url is the permalink when
non-empty and otherwise the title suffixed with .html, with every space of
that final string replaced by %20 and every other character kept (the
character-level flatMap description); the rendering context carries the
same url; and pre_render (either phase, any engine, any markdown
converter) preserves the url and the configuration and rebuilds the
context with the same url. -/
theorem C9_url_derivation_and_stability :
    (∀ (lines : List String) (path : String) (a : article.Article),
      article.Article.parse lines path = .ok a →
      a.url = rustReplace (if a.config.permalink = "" then a.config.title ++ ".html"
                           else a.config.permalink) " " "%20" ∧
      a.url.data = (if a.config.permalink = "" then a.config.title ++ ".html"
                    else a.config.permalink).data.flatMap
                      (fun c => if c = ' ' then "%20".data else [c]) ∧
      a.config_liquid.url = a.url) ∧
    (∀ (G E : Type) (engine : String → article.RenderCtx G → Except E String)
       (mdConv : String → String) (g : G) (md : Bool) (a a2 : article.Article),
      article.Article.pre_render engine mdConv g md a = .ok a2 →
      a2.url = a.url ∧ a2.config = a.config ∧ a2.config_liquid.url = a.url) := by
  constructor
  · intro lines path a h
    unfold article.Article.parse at h
    cases heq : article.parse lines path with
    | error e => rw [heq] at h; exact absurd h (by simp)
    | ok p =>
      rw [heq] at h
      obtain ⟨config, content⟩ := p
      simp only [Except.ok.injEq] at h
      subst h
      refine ⟨rfl, ?_, rfl⟩
      exact rustReplace_space _
  · intro G E engine mdConv g md a a2 h
    unfold article.Article.pre_render at h
    cases heq : engine a.template ⟨g, a.config_liquid, a.config.layout⟩ with
    | error e => rw [heq] at h; exact absurd h (by simp)
    | ok t =>
      rw [heq] at h
      simp only [Except.ok.injEq] at h
      subst h
      exact ⟨rfl, rfl, rfl⟩

/-- C9 witness: the url facts at a concretely parsed article and an
identity engine. -/
theorem C9_url_witness :
    (exampleArticle.url = rustReplace
        (if exampleArticle.config.permalink = "" then exampleArticle.config.title ++ ".html"
         else exampleArticle.config.permalink) " " "%20" ∧
      exampleArticle.url.data =
        (if exampleArticle.config.permalink = "" then exampleArticle.config.title ++ ".html"
         else exampleArticle.config.permalink).data.flatMap
          (fun c => if c = ' ' then "%20".data else [c]) ∧
      exampleArticle.config_liquid.url = exampleArticle.url) ∧
    (exampleArticle.url = exampleArticle.url ∧
      exampleArticle.config = exampleArticle.config ∧
      exampleArticle.config_liquid.url = exampleArticle.url) :=
  ⟨C9_url_derivation_and_stability.1 exampleLines "p" exampleArticle (by decide),
   C9_url_derivation_and_stability.2 Unit Unit (fun s _ => .ok s) id () false
     exampleArticle exampleArticle (by decide)⟩

/-- C10: processing a header line for a recognized key overwrites that one
field with a value computed from the line alone, so when the same key
occurs twice, applying the second line after the first gives exactly the
result of applying the second line alone (same success or failure, no
duplicate-key error, no merging); both parser variants agree, and a full
parse with a duplicated title keeps the last value. -/
theorem C10_duplicate_keys_overwrite :
    (∀ (path1 path2 line1 line2 : String) (n1 n2 : Int) (c c1 : parse.Config)
       (k r1 r2 : String),
      parse.apply_key path1 line1 n1 c k r1 = .ok c1 →
      parse.apply_key path2 line2 n2 c1 k r2 = parse.apply_key path2 line2 n2 c k r2) ∧
    (∀ (path1 path2 line1 line2 : String) (n1 n2 : Int) (c c1 : article.Config)
       (k r1 r2 : String),
      article.apply_key path1 line1 n1 c k r1 = .ok c1 →
      article.apply_key path2 line2 n2 c1 k r2 = article.apply_key path2 line2 n2 c k r2) ∧
    parse.parse ["---", "title:a", "title:b", "layout:p", "---"] "x" =
      .ok ({ layout := "p", base_layout := "default", title := "b", description := "",
             permalink := "", categories := [], tags := [], visible := false }, "") := by
  refine ⟨?_, ?_, by decide⟩
  · intro path1 path2 line1 line2 n1 n2 c c1 k r1 r2 h1
    unfold parse.apply_key at h1 ⊢
    split at h1 <;>
      first
        | exact Except.noConfusion h1
        | (split at h1 <;>
            first
              | exact Except.noConfusion h1
              | (simp only [Except.ok.injEq] at h1
                 subst h1
                 split <;> simp))
  · intro path1 path2 line1 line2 n1 n2 c c1 k r1 r2 h1
    unfold article.apply_key at h1 ⊢
    split at h1 <;>
      first
        | exact Except.noConfusion h1
        | (split at h1 <;>
            first
              | exact Except.noConfusion h1
              | (simp only [Except.ok.injEq] at h1
                 subst h1
                 split <;> simp))

/-- C10 witness: a duplicated title line at concrete values. -/
theorem C10_duplicate_keys_overwrite_witness :
    parse.apply_key "x" "title:b" 3 { parse.Config.default with title := "a" } "title" "b" =
      parse.apply_key "x" "title:b" 3 parse.Config.default "title" "b" ∧
    article.apply_key "x" "title:b" 3 { article.Config.default with title := "a" } "title" "b" =
      article.apply_key "x" "title:b" 3 article.Config.default "title" "b" :=
  ⟨C10_duplicate_keys_overwrite.1 "x" "x" "title:a" "title:b" 2 3
      parse.Config.default { parse.Config.default with title := "a" } "title" "a" "b" (by decide),
   C10_duplicate_keys_overwrite.2.1 "x" "x" "title:a" "title:b" 2 3
      article.Config.default { article.Config.default with title := "a" } "title" "a" "b" (by decide)⟩
